import Mathlib

/-!
Verification of the DORA-metrics correlation lambdas
(`src/cdk/lambdas/dora_custom_*_metric/index.py`) against their
natural-language specification.  Each Python handler is shallowly embedded
as a pure Lean function over explicit inputs: the inbound event fields, the
results of the external calls (pipeline introspection, Athena query,
incident store) and the static environment configuration.  Python
exceptions are modelled with `Except`; uncaught exceptions appear as
`.error` results, handlers that catch everything return plain values.
-/

set_option autoImplicit false

namespace Dora

/-- One call to the CloudWatch metrics sink (`put_metric_data`). -/
structure MetricSample where
  nameSpace : String
  metricName : String
  value : Int
  unit : String
deriving DecidableEq

/-- Predicate startsL n h: the chars `n` are an initial run of `h`. -/
def startsL : List Char → List Char → Bool
  | [], _ => true
  | _ :: _, [] => false
  | a :: as, b :: bs => a == b && startsL as bs

/-- Predicate occursL n h: the chars `n` occur contiguously inside `h`. -/
def occursL (needle : List Char) : List Char → Bool
  | [] => needle.isEmpty
  | b :: bs => startsL needle (b :: bs) || occursL needle bs

/-- Model of the Python string test `needle in hay`: contiguous substring containment.
The lambdas apply it with `hay` the raw `app_repo_names` environment
string (the code never splits that string into a list). -/
def pyInStr (needle hay : String) : Bool := occursL needle.data hay.data

/-! Incident-id extraction (`extract_source_branch_name`, MTTR lambda).

The Python code runs `re.search(r"from [^/]+/(.+?)(?:\n|$)", msg)`.  At the
leftmost position where `from ` is followed by a nonempty `/`-free run,
then `/`, then a nonempty run free of line breaks, the third run is the
captured group; otherwise the search moves one character right. -/

/-- Try the regex `from [^/]+/(.+?)(?:\n|$)` anchored at the head of `l`;
return the captured group. -/
def matchFromAt (l : List Char) : Option (List Char) :=
  if l.take 5 = "from ".data then
    let rest := l.drop 5
    let seg := rest.takeWhile (fun c => c ≠ '/')
    if seg.isEmpty then none
    else
      match rest.drop seg.length with
      | '/' :: after =>
        let grp := after.takeWhile (fun c => c ≠ '\n')
        if grp.isEmpty then none else some grp
      | _ => none
  else none

/-- Model of re.search: scan left to right for the first position where the
pattern matches. -/
def searchFrom : List Char → Option (List Char)
  | [] => none
  | c :: cs =>
    match matchFromAt (c :: cs) with
    | some g => some g
    | none => searchFrom cs

/-- Python `str.split("/")` on a char list: always returns a nonempty
list, with empty pieces between consecutive separators. -/
def splitSlash : List Char → List (List Char)
  | [] => [[]]
  | c :: cs =>
    if c = '/' then [] :: splitSlash cs
    else
      match splitSlash cs with
      | [] => [[c]]
      | p :: ps => (c :: p) :: ps

/-- Function extract_source_branch_name of the MTTR lambda: regex-match the
commit message, split the captured group on `/`; with exactly three parts
whose first and last are fix/hotfix synonyms the middle part is the
incident id, otherwise the last part is; no match gives `None`. -/
def extract_source_branch_name (commit_message : String) : Option String :=
  match searchFrom commit_message.data with
  | none => none
  | some grp =>
    match splitSlash grp with
    | [p0, p1, p2] =>
      if (p0 = "fix".data ∨ p0 = "hotfix".data) ∧
         (p2 = "hotfix".data ∨ p2 = "fix".data)
      then some (String.mk p1) else some (String.mk p2)
    | parts => (parts.getLast?).map String.mk

/-! Timestamp parsing.

`dateutil.parser.parse` is modelled for UTC ISO-8601 inputs of the exact
shape `YYYY-MM-DDTHH:MM:SSZ` with the result in whole seconds since the
Unix epoch; all other inputs are modelled as parse failures. -/

def digitVal (c : Char) : Option Nat :=
  if c.isDigit then some (c.toNat - 48) else none

def isLeap (y : Nat) : Bool := (y % 4 == 0 && y % 100 != 0) || y % 400 == 0

def daysBeforeMonth (leap : Bool) (m : Nat) : Nat :=
  let base :=
    match m with
    | 1 => 0 | 2 => 31 | 3 => 59 | 4 => 90 | 5 => 120 | 6 => 151
    | 7 => 181 | 8 => 212 | 9 => 243 | 10 => 273 | 11 => 304 | _ => 334
  base + (if 3 ≤ m ∧ leap = true then 1 else 0)

/-- Leap years in `[1, y-1]`. -/
def leapsBefore (y : Nat) : Nat := (y - 1) / 4 - (y - 1) / 100 + (y - 1) / 400

/-- Days from 0001-01-01 to the start of year `y`. -/
def daysBeforeYear (y : Nat) : Nat := 365 * (y - 1) + leapsBefore y

def toEpochSeconds (y m d h mi s : Nat) : Nat :=
  (daysBeforeYear y + daysBeforeMonth (isLeap y) m + (d - 1) - daysBeforeYear 1970)
    * 86400 + h * 3600 + mi * 60 + s

def parseDt (str : String) : Option Int :=
  match str.data with
  | [y1, y2, y3, y4, c1, m1, m2, c2, d1, d2, c3, h1, h2, c4, n1, n2, c5, s1, s2, c6] =>
    if c1 = '-' ∧ c2 = '-' ∧ c3 = 'T' ∧ c4 = ':' ∧ c5 = ':' ∧ c6 = 'Z' then
      match digitVal y1, digitVal y2, digitVal y3, digitVal y4, digitVal m1, digitVal m2,
            digitVal d1, digitVal d2, digitVal h1, digitVal h2, digitVal n1, digitVal n2,
            digitVal s1, digitVal s2 with
      | some a1, some a2, some a3, some a4, some b1, some b2, some e1, some e2,
        some f1, some f2, some g1, some g2, some k1, some k2 =>
        let y := 1000 * a1 + 100 * a2 + 10 * a3 + a4
        let m := 10 * b1 + b2
        let d := 10 * e1 + e2
        let h := 10 * f1 + f2
        let mi := 10 * g1 + g2
        let s := 10 * k1 + k2
        if 1970 ≤ y ∧ 1 ≤ m ∧ m ≤ 12 ∧ 1 ≤ d ∧ d ≤ 31 ∧ h ≤ 23 ∧ mi ≤ 59 ∧ s ≤ 59
        then some (Int.ofNat (toEpochSeconds y m d h mi s))
        else none
      | _, _, _, _, _, _, _, _, _, _, _, _, _, _ => none
    else none
  | _ => none

/-! Pipeline introspection model.

`get_pipeline` returns the pipeline declaration (its stages with their
actions); `get_pipeline_state` returns per-stage latest execution
statuses.  The outcome of each call is an explicit input to the handlers. -/

/-- One entry of the `actions` list of a declared stage. -/
structure ActionDecl where
  category : String
  branchName : Option String
  repositoryName : Option String
deriving DecidableEq

structure StageDecl where
  name : String
  actions : List ActionDecl
deriving DecidableEq

/-- Outcome of `codepipeline_client.get_pipeline(name=...)`. -/
inductive GetPipelineResp
  | notFound
  | raisedOther
  | ok (stages : List StageDecl)
deriving DecidableEq

/-- One entry built from `stageStates` in the `get_pipeline_state`
response. -/
structure StageState where
  stageName : String
  status : String
deriving DecidableEq

/-- Outcome of `codepipeline_client.get_pipeline_state(name=...)`:
the call raised, or the response lacks the `stageStates` key, or it
carries the listed stage states. -/
inductive PipelineStateResp
  | raised
  | noStageStates
  | ok (states : List StageState)
deriving DecidableEq

/-- Function get_stage_details (identical in the three pipeline lambdas): any
exception is caught and gives `None`; a response without `stageStates`
gives `[]`; otherwise the `(stageName, latestExecution.status)` list. -/
def get_stage_details : PipelineStateResp → Option (List StageState)
  | .raised => none
  | .noStageStates => some []
  | .ok l => some l

/-- Function extract_branch_from_pipeline_details (deployment-frequency lambda):
first action of category `Source` inside a stage named `Source`; a stage
named `Source` without such an action is skipped.  No hit returns a bare
`None` (not a pair). -/
def findSourceAction : List ActionDecl → Option ActionDecl
  | [] => none
  | a :: rest => if a.category = "Source" then some a else findSourceAction rest

def extract_branch_from_pipeline_details : List StageDecl → Option (Option String × Option String)
  | [] => none
  | s :: rest =>
    if s.name = "Source" then
      match findSourceAction s.actions with
      | some a => some (a.branchName, a.repositoryName)
      | none => extract_branch_from_pipeline_details rest
    else extract_branch_from_pipeline_details rest

/-! Deployment-frequency handler -/

/-- Static environment of the deployment-frequency / lead-time / MTTR
lambdas that the handlers consult. -/
structure DFConfig where
  app_repo_list : String
  app_prod_stage_name : String
deriving DecidableEq

structure DFResult where
  statusCode : Nat
  samples : List MetricSample
deriving DecidableEq

def deployment_frequency_sample : MetricSample :=
  { nameSpace := "DORA", metricName := "DeploymentFrequency", value := 1, unit := "Count" }

def prodStageSucceeded (prodName : String) (sd : List StageState) : Bool :=
  sd.any fun s => s.stageName == prodName && s.status == "Succeeded"

/-- Handler of the deployment-frequency lambda.  The whole body
sits in `try/except Exception`, so every raise becomes the 500 response:
a failed `get_pipeline`, unpacking the bare `None` from
`extract_branch_from_pipeline_details`, `None in app_repo_list`
(TypeError), and iterating the `None` returned by a failed
`get_stage_details`. -/
def lambda_handler_df (cfg : DFConfig) (state : String) (gp : GetPipelineResp)
    (ps : PipelineStateResp) : DFResult :=
  match gp with
  | .notFound => ⟨500, []⟩
  | .raisedOther => ⟨500, []⟩
  | .ok stages =>
    match extract_branch_from_pipeline_details stages with
    | none => ⟨500, []⟩
    | some (branchOpt, repoOpt) =>
      match repoOpt with
      | none => ⟨500, []⟩
      | some repo =>
        if pyInStr repo cfg.app_repo_list then
          match get_stage_details ps with
          | none => ⟨500, []⟩
          | some sd =>
            if prodStageSucceeded cfg.app_prod_stage_name sd
            then ⟨200, [deployment_frequency_sample]⟩
            else ⟨200, []⟩
        else
          if state == "SUCCEEDED" && branchOpt == some "master"
          then ⟨200, [deployment_frequency_sample]⟩
          else ⟨200, []⟩

/-! Lead-time-for-change handler -/

/-- One observation of the Athena query from `query_athena_for_commits`:
the status seen at the single poll, the wall-clock seconds elapsed when
the timeout guard runs, and the value in the first result row when results are
fetched. -/
structure AthenaEnv where
  status : String
  elapsed : Int
  firstRowValue : Option String
deriving DecidableEq

inductive QueryResult
  | exited
  | returned (r : Option String)
deriving DecidableEq

/-- Function query_athena_for_commits: status `FAILED` calls `sys.exit(1)`;
otherwise elapsed time beyond the fixed 300-second timeout calls
`sys.exit(1)`; status `SUCCEEDED` fetches the value in the first result row
(or `None`); any other status breaks out of the single-iteration poll
loop and returns `None` without fetching. -/
def query_athena_for_commits (env : AthenaEnv) : QueryResult :=
  if env.status = "FAILED" then .exited
  else if 300 < env.elapsed then .exited
  else if env.status = "SUCCEEDED" then .returned env.firstRowValue
  else .returned none

/-- Function calculate_lead_time: parse both timestamps with `dateutil`; any
exception (including `parse(None)` when the query found nothing) is
caught and gives `None`; otherwise the pair
(parsed event time, parsed earliest commit time). -/
def calculate_lead_time (earliest_commit_time : Option String)
    (pipeline_event_time : String) : Option (Int × Int) :=
  match parseDt pipeline_event_time with
  | none => none
  | some t1 =>
    match earliest_commit_time with
    | none => none
    | some s =>
      match parseDt s with
      | none => none
      | some t0 => some (t1, t0)

/-- Inbound event fields read by the lead-time handler; `none` models a
missing key (Python `KeyError`). -/
structure LTEvent where
  pipeline : Option String
  commit_id : Option String
  repository_name : Option String
  time : Option String
deriving DecidableEq

inductive SysExit
  | exit1
deriving DecidableEq

def lead_time_sample (duration_seconds : Int) : MetricSample :=
  { nameSpace := "DORA", metricName := "LeadTimeForChange",
    value := duration_seconds, unit := "Seconds" }

/-- Handler of the lead-time lambda.  Everything except
`SystemExit` (raised inside `query_athena_for_commits`) is caught by the
`except KeyError` / `except Exception` clauses and the handler falls
through to `return {"status": "success"}`; the success value is modelled
by the string `"success"` paired with the emitted samples. -/
def lambda_handler_ltc (cfg : DFConfig) (ev : LTEvent) (aenv : AthenaEnv)
    (ps : PipelineStateResp) : Except SysExit (String × List MetricSample) :=
  match ev.pipeline, ev.commit_id, ev.repository_name with
  | some _, some _, some repo =>
    match ev.time with
    | none => .ok ("success", [])
    | some eventTime =>
      match query_athena_for_commits aenv with
      | .exited => .error SysExit.exit1
      | .returned earliest =>
        match calculate_lead_time earliest eventTime with
        | none => .ok ("success", [])
        | some (t1, t0) =>
          if pyInStr repo cfg.app_repo_list then
            match get_stage_details ps with
            | none => .ok ("success", [])
            | some sd =>
              if prodStageSucceeded cfg.app_prod_stage_name sd then
                if t1 - t0 = 0 then .ok ("success", [])
                else .ok ("success", [lead_time_sample (t1 - t0)])
              else .ok ("success", [])
          else
            if t1 - t0 = 0 then .ok ("success", [])
            else .ok ("success", [lead_time_sample (t1 - t0)])
  | _, _, _ => .ok ("success", [])

/-- Samples actually sent to the sink during a lead-time invocation. -/
def ltSamples : Except SysExit (String × List MetricSample) → List MetricSample
  | .error _ => []
  | .ok (_, l) => l

/-- The acknowledgement a lead-time invocation hands back to its caller:
`some "success"` for the sole return value of the handler, `none` when the
process terminates via `SystemExit`. -/
def ltStatus : Except SysExit (String × List MetricSample) → Option String
  | .error _ => none
  | .ok (s, _) => some s

/-! Mean-time-to-restore handler -/

structure MTTRConfig where
  default_branch : String
  app_prod_stage_name : String
  app_repo_list : String
deriving DecidableEq

/-- Inbound event fields read by the MTTR handler (all read up front; the
claims concern well-formed pipeline events, so the fields are total
here). -/
structure MTTREvent where
  pipeline : String
  state : String
  repository_name : String
  branch_name : String
  commit_message : String
  time : String
deriving DecidableEq

/-- Result of `ssm_client.describe_ops_items` with the exact-id filter:
the `CreatedTime` of the first summary, or no match. -/
inductive SsmResp
  | found (createdTime : Int)
  | noMatch
deriving DecidableEq

/-- Uncaught Python exceptions escaping the MTTR handler. -/
inductive PyError
  | typeError
  | paramValidation
  | other
deriving DecidableEq

def mttr_sample (downtime_seconds : Int) : MetricSample :=
  { nameSpace := "DORA/MeanTimeToRestore", metricName := "Downtime-OPS-Item",
    value := downtime_seconds, unit := "Seconds" }

/-- Function calculate_downtime: the call `parse(final_time_str)` raises `TypeError` when
the handler never set a final time (it is still `None`), an unparseable
string raises, and `final_time - creation_time` raises `TypeError` when
`creation_time` is still `None`. -/
def calculate_downtime (creation_time : Option Int) (final_time_str : Option String) :
    Except PyError Int :=
  match final_time_str with
  | none => .error .typeError
  | some s =>
    match parseDt s with
    | none => .error .other
    | some ft =>
      match creation_time with
      | none => .error .typeError
      | some ct => .ok (ft - ct)

/-- Tail of the MTTR handler after the incident lookup: fetch stage
details, then branch on the repository classification.  The
`"creation_time" in locals() and "final_time" in locals()` guards are
always true (both names are bound to `None` up front), so they gate
nothing. -/
def mttr_tail (cfg : MTTRConfig) (ev : MTTREvent) (ps : PipelineStateResp)
    (creation_time : Option Int) (final_time : Option String) :
    Except PyError (Nat × List MetricSample) :=
  if pyInStr ev.repository_name cfg.app_repo_list then
    match get_stage_details ps with
    | none => .error .typeError
    | some sd =>
      if prodStageSucceeded cfg.app_prod_stage_name sd then
        match calculate_downtime creation_time final_time with
        | .error e => .error e
        | .ok d =>
          if d = 0 then .ok (200, [])
          else .ok (200, [mttr_sample d])
      else .ok (200, [])
  else
    match calculate_downtime creation_time final_time with
    | .error e => .error e
    | .ok d => .ok (200, [mttr_sample d])

/-- Handler of the MTTR lambda.  No surrounding `try/except`:
only `PipelineNotFoundException` from `get_pipeline` is handled (500
response); every other raise escapes as a `PyError`.  A `None` incident
id inside the ops-item filter `Values` raises the boto3 parameter
validation error. -/
def lambda_handler_mttr (cfg : MTTRConfig) (ev : MTTREvent) (gp : GetPipelineResp)
    (ssm : SsmResp) (ps : PipelineStateResp) :
    Except PyError (Nat × List MetricSample) :=
  match gp with
  | .notFound => .ok (500, [])
  | .raisedOther => .error .other
  | .ok _ =>
    if ev.branch_name == cfg.default_branch && ev.state == "SUCCEEDED" then
      match extract_source_branch_name ev.commit_message with
      | none => .error .paramValidation
      | some _ =>
        let creation_time := match ssm with
          | .found t => some t
          | .noMatch => none
        mttr_tail cfg ev ps creation_time (some ev.time)
    else
      mttr_tail cfg ev ps none none

/-- Samples actually sent to the sink during an MTTR invocation. -/
def mttrSamples : Except PyError (Nat × List MetricSample) → List MetricSample
  | .error _ => []
  | .ok (_, l) => l

/-! Change-failure-rate handler -/

structure CFREvent where
  detail_type : Option String
  status : Option String
deriving DecidableEq

def cfr_sample : MetricSample :=
  { nameSpace := "DORA/ChangeFailureRate", metricName := "TotalFailedItems",
    value := 1, unit := "Count" }

/-- Handler of the change-failure-rate lambda: emit one count on
`OpsItem Create` with status `Open`; a missing key raises `KeyError`,
caught by the surrounding `except Exception` into the 500 response. -/
def lambda_handler_cfr (ev : CFREvent) : Nat × List MetricSample :=
  match ev.detail_type, ev.status with
  | some dt, some st =>
    if dt == "OpsItem Create" && st == "Open" then (200, [cfr_sample])
    else (200, [])
  | _, _ => (500, [])

/-- The spec-side description of `getSourceConfig` ("the first stage
literally named Source ... branch and repository configuration of the first
source-category action"), written independently of the code for the
refinement proof of C8. -/
def firstSourcePairSpec (stages : List StageDecl) : Option (Option String × Option String) :=
  match stages.find? (fun s => s.name == "Source" && s.actions.any (fun a => a.category == "Source")) with
  | none => none
  | some s =>
    (s.actions.find? (fun a => a.category == "Source")).map
      (fun a => (a.branchName, a.repositoryName))

theorem findSourceAction_eq_find (l : List ActionDecl) :
    findSourceAction l = l.find? (fun a => a.category == "Source") := by
  induction l with
  | nil => rfl
  | cons a t ih =>
    by_cases h : a.category = "Source"
    · simp [findSourceAction, List.find?_cons, h]
    · simp [findSourceAction, List.find?_cons, h, ih]

theorem prodStageSucceeded_iff (pn : String) (sd : List StageState) :
    prodStageSucceeded pn sd = true ↔
      ∃ s ∈ sd, s.stageName = pn ∧ s.status = "Succeeded" := by
  simp [prodStageSucceeded, List.any_eq_true, Bool.and_eq_true, beq_iff_eq]

/-! Claims -/

/-- C1: The spec calls the release-model classification an exact,
case-sensitive membership test, under which a repository name that is a
mere substring of a configured name takes the release-branch logic.  The
code instead evaluates `repository_name in app_repo_list` with
`app_repo_list` the raw environment string, i.e. a substring test: with
the repository set configured as in the test fixtures of this repository
(`",".join(["repo-app-sample-1", "amazon/github-dora", "app1"])`), the
name `"app"` is not a member of the set, yet the handler classifies it
trunk-based — witnessed by the handler emitting nothing for a
release-branch-eligible event (state `SUCCEEDED`, branch `master`) whose
production stage has not succeeded. -/
theorem C1_substring_classification_bug :
    "app" ∉ ["repo-app-sample-1", "amazon/github-dora", "app1"] ∧
    pyInStr "app" "repo-app-sample-1,amazon/github-dora,app1" = true ∧
    lambda_handler_df ⟨"repo-app-sample-1,amazon/github-dora,app1", "DeployPROD"⟩
      "SUCCEEDED"
      (.ok [⟨"Source", [⟨"Source", some "master", some "app"⟩]⟩])
      (.ok [⟨"DeployPROD", "InProgress"⟩]) = ⟨200, []⟩ := by decide

/-- C2: The claim states that an MTTR-eligible event (default branch,
state `SUCCEEDED`) with no matching incident completes successfully with
zero sink calls and no error.  On the release-branch path the code
instead calls `calculate_downtime(None, final_time)` with the never-set
`creation_time`, and `final_time - None` raises an uncaught `TypeError`
(zero sink calls do occur). -/
theorem C2_no_incident_match_raises :
    lambda_handler_mttr
      ⟨"main", "DeployPROD", "repo-app-sample-1,amazon/github-dora,app1"⟩
      ⟨"pipe", "SUCCEEDED", "other-service", "main",
        "Merge pull request #123 from fix/incident-123/hotfix", "2023-01-01T01:00:00Z"⟩
      (.ok []) .noMatch (.ok []) = .error .typeError ∧
    mttrSamples (lambda_handler_mttr
      ⟨"main", "DeployPROD", "repo-app-sample-1,amazon/github-dora,app1"⟩
      ⟨"pipe", "SUCCEEDED", "other-service", "main",
        "Merge pull request #123 from fix/incident-123/hotfix", "2023-01-01T01:00:00Z"⟩
      (.ok []) .noMatch (.ok [])) = [] := ⟨rfl, rfl⟩

/-- C3: The claimed grammar example fails on the code: for
`"Merge pull request #123 from fix/incident-123/hotfix"` the regex
`from [^/]+/(.+?)(?:\n|$)` consumes the first branch segment (`fix`)
with `[^/]+`, so the captured group is `incident-123/hotfix`, which has
two segments and yields the last one, `"hotfix"`, not `"incident-123"`.
The two other spec examples do hold. -/
theorem C3_extraction_at_spec_examples :
    extract_source_branch_name
      "Merge pull request #123 from fix/incident-123/hotfix" = some "hotfix" ∧
    extract_source_branch_name
      "Merge pull request #123 from fix/incident-123/hotfix" ≠ some "incident-123" ∧
    extract_source_branch_name
      "Merge pull request #1 from feature/incident-77" = some "incident-77" ∧
    extract_source_branch_name "no clause here" = none := by decide

/-- C4 counterexample: The claim quantifies over every inbound
pipeline event, but in the lead-time handler a pipeline-introspection
failure is swallowed inside `get_stage_details`: on the release-branch
path the invocation still emits a metric and returns the success
acknowledgement — not a failure acknowledgement with zero sink calls. -/
theorem C4_lead_time_swallows_not_found :
    lambda_handler_ltc ⟨"repo-app-sample-1,amazon/github-dora,app1", "DeployPROD"⟩
      ⟨some "pipe", some "abc123", some "other-service", some "2023-01-01T01:00:00Z"⟩
      ⟨"SUCCEEDED", 0, some "2023-01-01T00:00:00Z"⟩
      .raised = .ok ("success", [lead_time_sample 3600]) := rfl

/-- C4 amended: When `get_pipeline` raises "pipeline not found",
the deployment-frequency handler returns the 500 failure response with
zero sink calls, and the MTTR handler returns its 500 "Pipeline not
found" response with zero sink calls; the lead-time handler is excluded
(see the counterexample). -/
theorem C4_not_found_failure_ack :
    (∀ (cfg : DFConfig) (state : String) (ps : PipelineStateResp),
       lambda_handler_df cfg state .notFound ps = ⟨500, []⟩) ∧
    (∀ (cfg : MTTRConfig) (ev : MTTREvent) (ssm : SsmResp) (ps : PipelineStateResp),
       lambda_handler_mttr cfg ev .notFound ssm ps = .ok (500, [])) :=
  ⟨fun _ _ _ => rfl, fun _ _ _ _ => rfl⟩

/-- C8 counterexample: For a pipeline whose stages contain no stage
named `Source`, `extract_branch_from_pipeline_details` returns the bare
`None` — not a sentinel pair — and the deployment-frequency invocation
consequently fails with the 500 response (the tuple unpacking raises
`TypeError`). -/
theorem C8_no_source_not_a_pair :
    extract_branch_from_pipeline_details
      [⟨"Build", [⟨"Build", some "main", some "repo1"⟩]⟩] = none ∧
    lambda_handler_df ⟨"app1", "DeployPROD"⟩ "SUCCEEDED"
      (.ok [⟨"Build", [⟨"Build", some "main", some "repo1"⟩]⟩])
      (.ok []) = ⟨500, []⟩ := by decide

/-- C8 amended: `extract_branch_from_pipeline_details` agrees with
the scan the spec prescribes (first stage named `Source` holding a source-category
action, branch/repository pair of the first such action), except that the
"not found" sentinel is a bare `None` rather than a pair; the
tuple unpacking in the caller then raises and the handler answers
with the 500 failure response and zero sink calls. -/
theorem C8_source_config_refinement (stages : List StageDecl) :
    extract_branch_from_pipeline_details stages = firstSourcePairSpec stages ∧
    (extract_branch_from_pipeline_details stages = none →
      ∀ (cfg : DFConfig) (state : String) (ps : PipelineStateResp),
        lambda_handler_df cfg state (.ok stages) ps = ⟨500, []⟩) := by
  constructor
  · induction stages with
    | nil => rfl
    | cons s rest ih =>
      by_cases hname : s.name = "Source"
      · rcases h : findSourceAction s.actions with _ | a
        · have hany : (s.actions.any fun a => a.category == "Source") = false := by
            rw [findSourceAction_eq_find] at h
            cases hb : s.actions.any fun a => a.category == "Source"
            · rfl
            · obtain ⟨x, hx, px⟩ := List.any_eq_true.mp hb
              exact absurd px (List.find?_eq_none.mp h x hx)
          simp [extract_branch_from_pipeline_details, firstSourcePairSpec,
            hname, h, List.find?_cons, hany, firstSourcePairSpec] at ih ⊢
          exact ih
        · have hfind : s.actions.find? (fun a => a.category == "Source") = some a := by
            rw [← findSourceAction_eq_find]; exact h
          have hpa := List.find?_some hfind
          have hmem := List.mem_of_find?_eq_some hfind
          have hany : (s.actions.any fun a => a.category == "Source") = true :=
            List.any_eq_true.mpr ⟨a, hmem, hpa⟩
          simp [extract_branch_from_pipeline_details, firstSourcePairSpec,
            hname, h, List.find?_cons, hany, hfind]
      · simp [extract_branch_from_pipeline_details, firstSourcePairSpec,
          hname, List.find?_cons, firstSourcePairSpec] at ih ⊢
        exact ih
  · intro h cfg state ps
    simp [lambda_handler_df, h]

/-- Witness for `C8_source_config_refinement` at a pipeline without a
`Source` stage. -/
theorem C8_source_config_refinement_witness :
    extract_branch_from_pipeline_details [⟨"Deploy", []⟩] =
      firstSourcePairSpec [⟨"Deploy", []⟩] ∧
    lambda_handler_df ⟨"app1", "DeployPROD"⟩ "FAILED"
      (.ok [⟨"Deploy", []⟩]) .raised = ⟨500, []⟩ :=
  ⟨(C8_source_config_refinement [⟨"Deploy", []⟩]).1,
   (C8_source_config_refinement [⟨"Deploy", []⟩]).2 rfl _ _ _⟩

/-- C5: Given a fetched pipeline declaration whose source action
names a repository, and fetched stage states, the deployment-frequency
handler emits exactly the one `DORA`/`DeploymentFrequency` Count-1 sample
iff either the trunk-based branch of logic finds a stage named by the
configured production-stage name with status `Succeeded`, or the
release-branch branch of logic sees top-level state `SUCCEEDED` with
source branch `master`; in every other case it emits nothing.  The
trunk/release split is the membership test of the code itself (see C1). -/
theorem C5_deployment_frequency_emission
    (cfg : DFConfig) (state : String) (stages : List StageDecl)
    (ps : PipelineStateResp) (branchOpt : Option String) (repo : String)
    (sd : List StageState)
    (hex : extract_branch_from_pipeline_details stages = some (branchOpt, some repo))
    (hsd : get_stage_details ps = some sd) :
    (lambda_handler_df cfg state (.ok stages) ps).samples =
      if (pyInStr repo cfg.app_repo_list = true ∧
            ∃ s ∈ sd, s.stageName = cfg.app_prod_stage_name ∧ s.status = "Succeeded") ∨
         (pyInStr repo cfg.app_repo_list = false ∧ state = "SUCCEEDED" ∧
            branchOpt = some "master")
      then [deployment_frequency_sample] else [] := by
  simp only [lambda_handler_df, hex, hsd]
  by_cases hr : pyInStr repo cfg.app_repo_list = true
  · rw [if_pos hr]
    by_cases hp : prodStageSucceeded cfg.app_prod_stage_name sd = true
    · rw [if_pos hp, if_pos (Or.inl ⟨hr, (prodStageSucceeded_iff _ _).mp hp⟩)]
    · rw [if_neg hp, if_neg]
      rintro (⟨-, hexs⟩ | ⟨hf, -⟩)
      · exact hp ((prodStageSucceeded_iff _ _).mpr hexs)
      · rw [hf] at hr
        exact absurd hr (by decide)
  · have hr' : pyInStr repo cfg.app_repo_list = false := by
      simpa using hr
    rw [if_neg hr]
    by_cases hrel : state = "SUCCEEDED" ∧ branchOpt = some "master"
    · have hb : (state == "SUCCEEDED" && branchOpt == some "master") = true := by
        simp [hrel.1, hrel.2]
      rw [if_pos hb, if_pos (Or.inr ⟨hr', hrel.1, hrel.2⟩)]
    · have hb : ¬((state == "SUCCEEDED" && branchOpt == some "master") = true) := by
        intro hcon
        rw [Bool.and_eq_true, beq_iff_eq, beq_iff_eq] at hcon
        exact hrel ⟨hcon.1, hcon.2⟩
      rw [if_neg hb, if_neg]
      rintro (⟨h1, -⟩ | ⟨-, h2, h3⟩)
      · exact hr h1
      · exact hrel ⟨h2, h3⟩

/-- Witness for `C5_deployment_frequency_emission`: a trunk-classified
repository with the production stage succeeded emits the single sample. -/
theorem C5_deployment_frequency_emission_witness :
    extract_branch_from_pipeline_details
      [⟨"Source", [⟨"Source", some "main", some "app1"⟩]⟩] =
      some (some "main", some "app1") ∧
    get_stage_details (.ok [⟨"DeployPROD", "Succeeded"⟩]) =
      some [⟨"DeployPROD", "Succeeded"⟩] ∧
    (lambda_handler_df ⟨"repo-app-sample-1,amazon/github-dora,app1", "DeployPROD"⟩
        "SUCCEEDED"
        (.ok [⟨"Source", [⟨"Source", some "main", some "app1"⟩]⟩])
        (.ok [⟨"DeployPROD", "Succeeded"⟩])).samples =
      if (pyInStr "app1" "repo-app-sample-1,amazon/github-dora,app1" = true ∧
            ∃ s ∈ [(⟨"DeployPROD", "Succeeded"⟩ : StageState)],
              s.stageName = "DeployPROD" ∧ s.status = "Succeeded") ∨
         (pyInStr "app1" "repo-app-sample-1,amazon/github-dora,app1" = false ∧
            "SUCCEEDED" = "SUCCEEDED" ∧ (some "main" : Option String) = some "master")
      then [deployment_frequency_sample] else [] :=
  ⟨rfl, rfl,
   C5_deployment_frequency_emission
     ⟨"repo-app-sample-1,amazon/github-dora,app1", "DeployPROD"⟩ "SUCCEEDED"
     [⟨"Source", [⟨"Source", some "main", some "app1"⟩]⟩]
     (.ok [⟨"DeployPROD", "Succeeded"⟩]) (some "main") "app1"
     [⟨"DeployPROD", "Succeeded"⟩] rfl rfl⟩

/-- C6: The lead-time value is the event time minus the earliest
commit time, in seconds — the concrete timestamp pair of the spec gives
exactly 3600 — and whenever the computed duration is zero the handler
emits nothing; any sample it does emit carries exactly that duration. -/
theorem C6_lead_time_duration :
    ((calculate_lead_time (some "2023-01-01T00:00:00Z") "2023-01-01T01:00:00Z").map
        (fun p => p.1 - p.2) = some 3600) ∧
    (∀ (cfg : DFConfig) (p c repo eventTime : String) (aenv : AthenaEnv)
        (ps : PipelineStateResp) (r : Option String) (t1 t0 : Int),
      query_athena_for_commits aenv = .returned r →
      calculate_lead_time r eventTime = some (t1, t0) →
      (ltSamples (lambda_handler_ltc cfg ⟨some p, some c, some repo, some eventTime⟩ aenv ps) = [] ∨
       ltSamples (lambda_handler_ltc cfg ⟨some p, some c, some repo, some eventTime⟩ aenv ps) =
         [lead_time_sample (t1 - t0)]) ∧
      (t1 - t0 = 0 →
        ltSamples (lambda_handler_ltc cfg ⟨some p, some c, some repo, some eventTime⟩ aenv ps) = [])) := by
  refine ⟨by decide, ?_⟩
  intro cfg p c repo eventTime aenv ps r t1 t0 hq hc
  simp only [lambda_handler_ltc, hq, hc]
  constructor
  · by_cases hr : pyInStr repo cfg.app_repo_list = true
    · rw [if_pos hr]
      cases hsd : get_stage_details ps with
      | none => exact Or.inl rfl
      | some sd =>
        dsimp only
        by_cases hp : prodStageSucceeded cfg.app_prod_stage_name sd = true
        · rw [if_pos hp]
          by_cases hz : t1 - t0 = 0
          · rw [if_pos hz]; exact Or.inl rfl
          · rw [if_neg hz]; exact Or.inr rfl
        · rw [if_neg hp]; exact Or.inl rfl
    · rw [if_neg hr]
      by_cases hz : t1 - t0 = 0
      · rw [if_pos hz]; exact Or.inl rfl
      · rw [if_neg hz]; exact Or.inr rfl
  · intro hz
    by_cases hr : pyInStr repo cfg.app_repo_list = true
    · rw [if_pos hr]
      cases hsd : get_stage_details ps with
      | none => rfl
      | some sd =>
        dsimp only
        by_cases hp : prodStageSucceeded cfg.app_prod_stage_name sd = true
        · rw [if_pos hp, if_pos hz]
          rfl
        · rw [if_neg hp]
          rfl
    · rw [if_neg hr, if_pos hz]
      rfl

/-- Witness for `C6_lead_time_duration` at the timestamps of the spec. -/
theorem C6_lead_time_duration_witness :
    query_athena_for_commits ⟨"SUCCEEDED", 0, some "2023-01-01T00:00:00Z"⟩ =
      .returned (some "2023-01-01T00:00:00Z") ∧
    calculate_lead_time (some "2023-01-01T00:00:00Z") "2023-01-01T01:00:00Z" =
      some (1672534800, 1672531200) ∧
    ((ltSamples (lambda_handler_ltc ⟨"app1", "DeployPROD"⟩
        ⟨some "p", some "c", some "other-service", some "2023-01-01T01:00:00Z"⟩
        ⟨"SUCCEEDED", 0, some "2023-01-01T00:00:00Z"⟩ (.ok [])) = [] ∨
      ltSamples (lambda_handler_ltc ⟨"app1", "DeployPROD"⟩
        ⟨some "p", some "c", some "other-service", some "2023-01-01T01:00:00Z"⟩
        ⟨"SUCCEEDED", 0, some "2023-01-01T00:00:00Z"⟩ (.ok [])) =
        [lead_time_sample (1672534800 - 1672531200)]) ∧
     (1672534800 - 1672531200 = (0 : Int) →
      ltSamples (lambda_handler_ltc ⟨"app1", "DeployPROD"⟩
        ⟨some "p", some "c", some "other-service", some "2023-01-01T01:00:00Z"⟩
        ⟨"SUCCEEDED", 0, some "2023-01-01T00:00:00Z"⟩ (.ok [])) = [])) :=
  ⟨rfl, by decide,
   C6_lead_time_duration.2 ⟨"app1", "DeployPROD"⟩ "p" "c" "other-service"
     "2023-01-01T01:00:00Z" ⟨"SUCCEEDED", 0, some "2023-01-01T00:00:00Z"⟩
     (.ok []) (some "2023-01-01T00:00:00Z") 1672534800 1672531200 rfl (by decide)⟩

/-- C7: In `query_athena_for_commits`, observing status `FAILED`
terminates via `sys.exit(1)` before any result fetching, and a wall-clock
reading beyond the 300-second timeout likewise terminates; either way the
`SystemExit` escapes every `except` clause of the lead-time handler, so
the whole invocation aborts as fatal. -/
theorem C7_query_failed_or_timeout_fatal :
    (∀ aenv : AthenaEnv, aenv.status = "FAILED" →
       query_athena_for_commits aenv = .exited) ∧
    (∀ aenv : AthenaEnv, 300 < aenv.elapsed →
       query_athena_for_commits aenv = .exited) ∧
    (∀ (cfg : DFConfig) (p c repo t : String) (aenv : AthenaEnv)
        (ps : PipelineStateResp),
       query_athena_for_commits aenv = .exited →
       lambda_handler_ltc cfg ⟨some p, some c, some repo, some t⟩ aenv ps =
         .error SysExit.exit1) := by
  refine ⟨?_, ?_, ?_⟩
  · intro aenv h
    simp [query_athena_for_commits, h]
  · intro aenv h
    by_cases hf : aenv.status = "FAILED"
    · simp [query_athena_for_commits, hf]
    · simp [query_athena_for_commits, hf, h]
  · intro cfg p c repo t aenv ps h
    simp [lambda_handler_ltc, h]

/-- Witness for `C7_query_failed_or_timeout_fatal`. -/
theorem C7_query_failed_or_timeout_fatal_witness :
    query_athena_for_commits ⟨"FAILED", 0, none⟩ = .exited ∧
    query_athena_for_commits ⟨"RUNNING", 301, none⟩ = .exited ∧
    lambda_handler_ltc ⟨"app1", "DeployPROD"⟩
      ⟨some "p", some "c", some "r", some "2023-01-01T01:00:00Z"⟩
      ⟨"FAILED", 0, none⟩ (.ok []) = .error SysExit.exit1 :=
  ⟨C7_query_failed_or_timeout_fatal.1 ⟨"FAILED", 0, none⟩ rfl,
   C7_query_failed_or_timeout_fatal.2.1 ⟨"RUNNING", 301, none⟩ (by decide),
   C7_query_failed_or_timeout_fatal.2.2 ⟨"app1", "DeployPROD"⟩ "p" "c" "r"
     "2023-01-01T01:00:00Z" ⟨"FAILED", 0, none⟩ (.ok [])
     (C7_query_failed_or_timeout_fatal.1 ⟨"FAILED", 0, none⟩ rfl)⟩

/-- C9: Every invocation of any of the four metric handlers performs
at most one metric-sink call, on every execution path including the
error paths. -/
theorem C9_at_most_one_sample :
    (∀ (cfg : DFConfig) (state : String) (gp : GetPipelineResp)
        (ps : PipelineStateResp),
       (lambda_handler_df cfg state gp ps).samples.length ≤ 1) ∧
    (∀ (cfg : DFConfig) (ev : LTEvent) (aenv : AthenaEnv)
        (ps : PipelineStateResp),
       (ltSamples (lambda_handler_ltc cfg ev aenv ps)).length ≤ 1) ∧
    (∀ (cfg : MTTRConfig) (ev : MTTREvent) (gp : GetPipelineResp)
        (ssm : SsmResp) (ps : PipelineStateResp),
       (mttrSamples (lambda_handler_mttr cfg ev gp ssm ps)).length ≤ 1) ∧
    (∀ ev : CFREvent, (lambda_handler_cfr ev).2.length ≤ 1) := by
  refine ⟨?_, ?_, ?_, ?_⟩
  · intro cfg state gp ps
    unfold lambda_handler_df
    (repeat' split) <;> simp
  · intro cfg ev aenv ps
    unfold lambda_handler_ltc
    (repeat' split) <;> simp [ltSamples]
  · intro cfg ev gp ssm ps
    have htail : ∀ ct ft, (mttrSamples (mttr_tail cfg ev ps ct ft)).length ≤ 1 := by
      intro ct ft
      unfold mttr_tail
      by_cases hr : pyInStr ev.repository_name cfg.app_repo_list = true
      · rw [if_pos hr]
        cases hsd : get_stage_details ps with
        | none => simp [mttrSamples]
        | some sd =>
          dsimp only
          by_cases hp : prodStageSucceeded cfg.app_prod_stage_name sd = true
          · rw [if_pos hp]
            cases hcd : calculate_downtime ct ft with
            | error e => simp [mttrSamples]
            | ok d =>
              dsimp only
              by_cases hz : d = 0
              · rw [if_pos hz]; simp [mttrSamples]
              · rw [if_neg hz]; simp [mttrSamples]
          · rw [if_neg hp]; simp [mttrSamples]
      · rw [if_neg hr]
        cases hcd : calculate_downtime ct ft with
        | error e => simp [mttrSamples]
        | ok d => simp [mttrSamples]
    cases gp with
    | notFound => simp [lambda_handler_mttr, mttrSamples]
    | raisedOther => simp [lambda_handler_mttr, mttrSamples]
    | ok stages =>
      simp only [lambda_handler_mttr]
      by_cases he : (ev.branch_name == cfg.default_branch && ev.state == "SUCCEEDED") = true
      · rw [if_pos he]
        cases hex : extract_source_branch_name ev.commit_message with
        | none => simp [mttrSamples]
        | some sref =>
          dsimp only
          exact htail _ _
      · rw [if_neg he]
        exact htail _ _
  · intro ev
    unfold lambda_handler_cfr
    (repeat' split) <;> simp

/-- C10: Whenever the Athena query path does not raise `SystemExit`,
the lead-time handler catches every exception and hands back its one
fixed success acknowledgement, for every event — malformed ones
included. -/
theorem C10_lead_time_always_success (cfg : DFConfig) (ev : LTEvent)
    (aenv : AthenaEnv) (ps : PipelineStateResp)
    (h : query_athena_for_commits aenv ≠ .exited) :
    ltStatus (lambda_handler_ltc cfg ev aenv ps) = some "success" := by
  obtain ⟨op, oc, orn, ot⟩ := ev
  rcases op with _ | p
  · rfl
  rcases oc with _ | c
  · rfl
  rcases orn with _ | rn
  · rfl
  rcases ot with _ | t
  · rfl
  cases hq : query_athena_for_commits aenv with
  | exited => exact absurd hq h
  | returned r =>
    simp only [lambda_handler_ltc, hq]
    (repeat' split) <;> rfl

/-- Witness for `C10_lead_time_always_success` on an event missing every
required key. -/
theorem C10_lead_time_always_success_witness :
    ltStatus (lambda_handler_ltc ⟨"app1", "DeployPROD"⟩ ⟨none, none, none, none⟩
      ⟨"RUNNING", 0, none⟩ .raised) = some "success" :=
  C10_lead_time_always_success ⟨"app1", "DeployPROD"⟩ ⟨none, none, none, none⟩
    ⟨"RUNNING", 0, none⟩ .raised (by decide)

end Dora

example : Dora.extract_source_branch_name
    "Merge pull request #123 from fix/incident-123/hotfix" = some "hotfix" := by decide

example : Dora.extract_source_branch_name
    "Merge pull request #1 from feature/incident-77" = some "incident-77" := by decide

example : Dora.extract_source_branch_name "no clause here" = none := by decide

example : Dora.parseDt "2023-01-01T01:00:00Z" = some 1672534800 := by decide

example : Dora.pyInStr "app" "repo-app-sample-1,amazon/github-dora,app1" = true := by decide
